import Mathlib

/-!
Shallow embedding of the emote-vacuum database module.

The repository carries two revisions of the same module:
  * `src/emote_collector/extensions/db.py` — embedded below in namespace `EC`;
  * `src/cogs/db.py`                       — embedded below in namespace `Cogs`.
Timestamps are `Int`, ids are `Nat`, SQL `LOWER` / Python `str.lower` are
the ASCII `lower` below.  Database tables are lists of rows; external collaborators
(the Discord HTTP API) are opaque, so their outcomes appear as explicit
parameters exactly where the Python source inspects or catches them.
Raising an exception is returning `Except.error`; a Python function that
raises before issuing any UPDATE/DELETE/INSERT leaves the database unchanged,
which the `Except` embedding renders as "no new state is produced".
-/

namespace EmoteVacuum

/-- Decidable equality of operation outcomes, so that concrete runs can be
settled by `decide`. -/
instance {ε α : Type} [DecidableEq ε] [DecidableEq α] :
    DecidableEq (Except ε α) := fun a b =>
  match a, b with
  | .ok x, .ok y => if h : x = y then .isTrue (by rw [h]) else .isFalse (by simp [h])
  | .error x, .error y => if h : x = y then .isTrue (by rw [h]) else .isFalse (by simp [h])
  | .ok _, .error _ => .isFalse (by simp)
  | .error _, .ok _ => .isFalse (by simp)

/-- The `nsfw` column domain (`'SFW' | 'SELF_NSFW' | 'MOD_NSFW'`). -/
inductive Nsfw
  | SFW
  | SELF_NSFW
  | MOD_NSFW
deriving DecidableEq, Repr

/-- The string stored in the `nsfw` column for each status. -/
def Nsfw.str : Nsfw → String
  | .SFW => "SFW"
  | .SELF_NSFW => "SELF_NSFW"
  | .MOD_NSFW => "MOD_NSFW"

/-- `DatabaseEmote.is_nsfw`: `self.nsfw.endswith('NSFW')` (the suffix test
is written over the character lists so that it evaluates inside the
kernel). -/
def Nsfw.is_nsfw (n : Nsfw) : Bool := "NSFW".data.isSuffixOf n.str.data

/-- The exceptions raised by the module (`utils.errors` plus
`commands.BadArgument`); `discordError` stands for the caught/propagated
failures of the external Discord collaborator. -/
inductive EmoteError
  | notFound (name : String)
  | emoteExists (name : String)
  | permissionDenied (name : String)
  | blacklisted (reason : String)
  | noMoreSlots
  | discordError
  | badArgument
  | internalError
deriving DecidableEq, Repr

/-- A row of the `emotes` table of `emote_collector/extensions/db.py`
(columns not read or written by any verified operation — `description`,
`modified` — are omitted). -/
structure Emote where
  name : String
  id : Nat
  author : Nat
  animated : Bool
  guild : Nat
  created : Int
  preserve : Bool
  nsfw : Nsfw
deriving DecidableEq, Repr

/-- A row of `emote_usage_history`: `(id, time)`. -/
structure UsageEvent where
  id : Nat
  time : Int
deriving DecidableEq, Repr

/-- A row of `user_opt`: `(id, state, blacklist_reason)`; a `none` field is
SQL NULL, absence of a row altogether is modelled by absence from the list. -/
structure UserOpt where
  id : Nat
  state : Option Bool
  blacklist_reason : Option String
deriving DecidableEq, Repr

/-- A row of `guild_opt`: `(id, state)`. -/
structure GuildOpt where
  id : Nat
  state : Option Bool
deriving DecidableEq, Repr

/-- A row of the `guilds` view read by `EC.free_guild`: backend guild id with
its per-kind occupancy columns `animated_usage` / `static_usage`. -/
structure GuildRow where
  id : Nat
  animated_usage : Nat
  static_usage : Nat
deriving DecidableEq, Repr

/-- The database state of the `emote_collector/extensions` revision. -/
structure ECState where
  emotes : List Emote
  usage : List UsageEvent
  user_opt : List UserOpt
  guild_opt : List GuildOpt
deriving DecidableEq, Repr

/-- A row of the `emojis` table of `src/cogs/db.py` (no `guild` column). -/
structure CEmote where
  name : String
  id : Nat
  author : Nat
  animated : Bool
  created : Int
  preserve : Bool
deriving DecidableEq, Repr

/-- The database state of the `src/cogs` revision. -/
structure CogsState where
  emojis : List CEmote
  usage : List UsageEvent
  user_opt : List UserOpt
  guild_opt : List GuildOpt
deriving DecidableEq, Repr

/-- A backend guild as seen by `Cogs.free_guild`: its cached emoji list,
kept as the list of the emojis' `animated` flags (the only field read). -/
structure CGuild where
  id : Nat
  emojis : List Bool
deriving DecidableEq, Repr

/-- Outcome of the external `delete_custom_emoji` call: success, a 404
(`discord.NotFound`), or any other failure. -/
inductive ExternalDelete
  | ok
  | notFound
  | failed
deriving DecidableEq, Repr

/-- `fun _ => False`: the injected `bot.is_owner` oracle that recognises
nobody as the bot owner (used for system-initiated paths and witnesses). -/
def noAdmin : Nat → Bool := fun _ => false

/-- ASCII lowercase of one character (`Char.toLower`'s definition, inlined so
that it evaluates inside the kernel). -/
def lowerChar (c : Char) : Char :=
  if c.isUpper then Char.ofNat (c.toNat + 32) else c

/-- Python `str.lower` / SQL `LOWER` on the (ASCII) emote names, written by
structural recursion over the character list so that kernel reduction — and
hence `decide`/`rfl` on concrete states — works; the library `toLower` is
defined by well-founded recursion. -/
def lower (s : String) : String := ⟨s.data.map lowerChar⟩

namespace EC

/-- `Database.get_emote`: `SELECT * FROM emotes WHERE LOWER(name) = LOWER($1)`,
raising `EmoteNotFoundError(name)` on a miss. -/
def get_emote (st : ECState) (name : String) : Except EmoteError Emote :=
  match st.emotes.find? (fun e => lower e.name == lower name) with
  | some e => .ok e
  | none => .error (.notFound name)

/-- `Database.ensure_emote_does_not_exist`: `get_emote`, swallowing the
not-found error and raising `EmoteExistsError(emote)` on a hit. -/
def ensure_emote_does_not_exist (st : ECState) (name : String) :
    Except EmoteError Unit :=
  match get_emote st name with
  | .ok e => .error (.emoteExists e.name)
  | .error _ => .ok ()

/-- The per-kind occupancy column read by `free_guild`'s
`WHERE {'animated' if animated else 'static'}_usage < 50`. -/
def usage_col (animated : Bool) (g : GuildRow) : Nat :=
  if animated then g.animated_usage else g.static_usage

/-- The rows surviving `free_guild`'s `WHERE ..._usage < 50` filter. -/
def fg_candidates (guilds : List GuildRow) (animated : Bool) : List GuildRow :=
  guilds.filter (fun g => decide (usage_col animated g < 50))

/-- `Database.free_guild`: filter the `guilds` view to under-capacity rows,
`ORDER BY random() LIMIT 1`.  The randomness enters as the draw `k`: the
query returns the `(k % n)`-th of the `n` surviving rows, so every candidate
is reachable by some draw.  `None` from `fetchval` (no row survives) raises
`NoMoreSlotsError`. -/
def free_guild (guilds : List GuildRow) (animated : Bool) (k : Nat) :
    Except EmoteError Nat :=
  match (fg_candidates guilds animated)[k % (fg_candidates guilds animated).length]? with
  | some g => .ok g.id
  | none => .error .noMoreSlots

/-- `Database.get_user_blacklist`:
`SELECT blacklist_reason FROM user_opt WHERE id = $1`. -/
def get_user_blacklist (st : ECState) (user_id : Nat) : Option String :=
  (st.user_opt.find? (fun r => r.id == user_id)).bind (fun r => r.blacklist_reason)

/-- `Database.get_user_state` via `_get_state('user_opt', id)`. -/
def get_user_state (st : ECState) (user_id : Nat) : Option Bool :=
  (st.user_opt.find? (fun r => r.id == user_id)).bind (fun r => r.state)

/-- `Database.get_guild_state` via `_get_state('guild_opt', id)`. -/
def get_guild_state (st : ECState) (guild_id : Nat) : Option Bool :=
  (st.guild_opt.find? (fun r => r.id == guild_id)).bind (fun r => r.state)

/-- `Database.get_state`: the single `COALESCE(CASE WHEN blacklist_reason IS
NULL THEN NULL ELSE FALSE END, user_state, guild_state, true)` query. -/
def get_state (st : ECState) (guild_id user_id : Nat) : Bool :=
  match get_user_blacklist st user_id with
  | some _ => false
  | none =>
    match get_user_state st user_id with
    | some s => s
    | none =>
      match get_guild_state st guild_id with
      | some s => s
      | none => true

/-- `Database.is_owner`: `None` bypasses; else bot owner or author. -/
def is_owner (e : Emote) (user_id : Option Nat) (is_bot_owner : Nat → Bool) :
    Bool :=
  match user_id with
  | none => true
  | some u => is_bot_owner u || e.author == u

/-- `Database.owner_check`: `is_owner` raising `PermissionDeniedError`. -/
def owner_check (e : Emote) (user_id : Option Nat) (is_bot_owner : Nat → Bool) :
    Except EmoteError Unit :=
  if is_owner e user_id is_bot_owner then .ok () else .error (.permissionDenied e.name)

/-- `Database.create_emote`: name-conflict check, then `free_guild`, then the
external `create_custom_emoji` call (opaque; its returned id enters as
`new_id`), then the INSERT.  Columns absent from the INSERT take their schema
defaults (`created = now`, `preserve = false`, `nsfw = 'SFW'`), per the data
model of the spec — the schema file is not under src.  Note: no blacklist
consultation appears anywhere in this function. -/
def create_emote (st : ECState) (guilds : List GuildRow) (name : String)
    (author_id : Nat) (animated : Bool) (new_id : Nat) (now : Int) (k : Nat) :
    Except EmoteError (ECState × Emote) := do
  ensure_emote_does_not_exist st name
  let guild_id ← free_guild guilds animated k
  let e : Emote :=
    { name := name, id := new_id, author := author_id,
      animated := animated, guild := guild_id, created := now,
      preserve := false, nsfw := .SFW }
  return ({ st with emotes := st.emotes ++ [e] }, e)

/-- Modelled from the spec: the purge of a destroyed resource's Usage Ledger
rows.  `remove_emote` in `emote_collector/extensions/db.py` issues only
`DELETE FROM emotes WHERE id = $1`; the matching `emote_usage_history` purge
is schema-level (the schema file is not under src), and the spec's data model
states that destruction "always removes both the metadata record and all
associated Usage Ledger entries". -/
def purge_usage (usage : List UsageEvent) (eid : Nat) : List UsageEvent :=
  usage.filter (fun u => u.id != eid)

/-- `Database.remove_emote` on an emote object: ownership check, external
`delete_custom_emoji` (a 404 — `discord.NotFound` — is caught and logged as
a warning; any other failure propagates), then the metadata DELETE.  The
returned flag records whether the desync warning was logged. -/
def remove_emote (st : ECState) (e : Emote) (user_id : Option Nat)
    (is_bot_owner : Nat → Bool) (ext : ExternalDelete) :
    Except EmoteError (ECState × Bool) := do
  owner_check e user_id is_bot_owner
  match ext with
  | .failed => throw .discordError
  | _ =>
    return ({ st with emotes := st.emotes.filter (fun x => x.id != e.id),
                      usage := purge_usage st.usage e.id },
            ext == ExternalDelete.notFound)

/-- `Database.rename_emote`: skip the conflict check when only capitalization
changes, then lookup, ownership check, external `edit_custom_emoji` (opaque,
modelled as succeeding — its failure modes are orthogonal to the renaming
logic), then the UPDATE. -/
def rename_emote (st : ECState) (old_name new_name : String)
    (user_id : Option Nat) (is_bot_owner : Nat → Bool) :
    Except EmoteError (ECState × Emote) := do
  if lower old_name ≠ lower new_name then
    ensure_emote_does_not_exist st new_name
  let e ← get_emote st old_name
  owner_check e user_id is_bot_owner
  return ({ st with emotes := st.emotes.map (fun x =>
      if x.id == e.id then { x with name := new_name } else x) },
    { e with name := new_name })

/-- The count produced by joining `emote_usage_history` on
`euh.id = e.id AND time > $1` (the `$1` being the cutoff). -/
def usage_count (usage : List UsageEvent) (eid : Nat) (cutoff : Int) : Nat :=
  (usage.filter (fun u => u.id == eid && decide (cutoff < u.time))).length

/-- `Database.decayable_emotes`: `WHERE created < $1 AND NOT preserve ...
HAVING COUNT(euh.id) < $2`, with the join counted by `usage_count`. -/
def decayable_emotes (st : ECState) (cutoff : Int) (usage_threshold : Nat) :
    List Emote :=
  st.emotes.filter (fun e =>
    decide (e.created < cutoff) && !e.preserve &&
    decide (usage_count st.usage e.id cutoff < usage_threshold))

/-- `Database.log_emote_use`: `INSERT ... SELECT ($1) WHERE NOT EXISTS
(SELECT 1 FROM emotes WHERE id = $1 AND author = $2)`. -/
def log_emote_use (st : ECState) (emote_id user_id : Nat) (now : Int) :
    ECState :=
  if st.emotes.any (fun e => e.id == emote_id && e.author == user_id) then st
  else { st with usage := st.usage ++ [⟨emote_id, now⟩] }

/-- Observable record of one `Database.decay` pass: the final database state,
the candidates notified (`logger.on_emote_decay`), the notifications
retracted (`removal_message.delete()`), and the failures logged
(`logger.error`), each as a list of emote names in pass order. -/
structure DecayLog where
  state : ECState
  notified : List String
  retracted : List String
  failures : List String
deriving DecidableEq, Repr

/-- The loop body of `Database.decay` over an already-fetched candidate list:
notify, attempt a system-initiated removal (`user_id=None`), and on a caught
error (`ConnoisseurError`/`DiscordError` — the error-class hierarchy is not
under src; per spec §7 the external delete failure is such a caught error)
log it, retract the notification and continue with the next candidate. -/
def decayGo (ext : Nat → ExternalDelete) : ECState → List Emote → DecayLog
  | st, [] => { state := st, notified := [], retracted := [], failures := [] }
  | st, e :: rest =>
    match remove_emote st e none noAdmin (ext e.id) with
    | .ok (st', _) =>
      let r := decayGo ext st' rest
      { r with notified := e.name :: r.notified }
    | .error _ =>
      let r := decayGo ext st rest
      { r with notified := e.name :: r.notified,
               retracted := e.name :: r.retracted,
               failures := e.name :: r.failures }

/-- `Database.decay`: one pass over `decayable_emotes`. -/
def decay (st : ECState) (cutoff : Int) (usage_threshold : Nat)
    (ext : Nat → ExternalDelete) : DecayLog :=
  decayGo ext st (decayable_emotes st cutoff usage_threshold)

/-- `Database.new_nsfw_status`: `Except.error` is the raised `BadArgument`;
the `Option` result mirrors Python's implicit `None` on the final
fall-through (dead for this column domain, see `new_nsfw_status_not_none`). -/
def new_nsfw_status (nsfw : Nsfw) (by_mod : Bool) :
    Except EmoteError (Option Nsfw) :=
  let desired_status := !nsfw.is_nsfw
  if by_mod then
    .ok (some (if desired_status then .MOD_NSFW else .SFW))
  else if desired_status then
    .ok (some .SELF_NSFW)
  else if nsfw == .MOD_NSFW then
    .error .badArgument
  else if nsfw == .SELF_NSFW then
    .ok (some .SFW)
  else
    .ok none

/-- `Database.toggle_emote_nsfw`: compute the new status, then UPDATE.  The
`getD` only totalises the dead `none` arm (`new_nsfw_status_not_none`). -/
def toggle_emote_nsfw (st : ECState) (e : Emote) (by_mod : Bool) :
    Except EmoteError (ECState × Option Nsfw) := do
  let new_status ← new_nsfw_status e.nsfw by_mod
  return ({ st with emotes := st.emotes.map (fun x =>
      if x.id == e.id then { x with nsfw := new_status.getD x.nsfw } else x) },
    new_status)

end EC

namespace Cogs

/-- `Database.get_emote` of `src/cogs/db.py`:
`SELECT * FROM emojis WHERE LOWER(name) = LOWER($1)`; an empty
`DatabaseEmote` dict (no row) is falsy, modelled as `none`. -/
def get_emote (st : CogsState) (name : String) : Option CEmote :=
  st.emojis.find? (fun e => lower e.name == lower name)

/-- `Database.ensure_emote_does_not_exist`: raises `EmoteExistsError` with
the original capitalization of the stored name. -/
def ensure_emote_does_not_exist (st : CogsState) (name : String) :
    Except EmoteError Unit :=
  match get_emote st name with
  | some e => .error (.emoteExists e.name)
  | none => .ok ()

/-- `Database.get_user_blacklist`. -/
def get_user_blacklist (st : CogsState) (user_id : Nat) : Option String :=
  (st.user_opt.find? (fun r => r.id == user_id)).bind (fun r => r.blacklist_reason)

/-- `Database.get_user_state` via `_get_state('user_opt', id)`. -/
def get_user_state (st : CogsState) (user_id : Nat) : Option Bool :=
  (st.user_opt.find? (fun r => r.id == user_id)).bind (fun r => r.state)

/-- `Database.get_guild_state` via `_get_state('guild_opt', id)`. -/
def get_guild_state (st : CogsState) (guild_id : Nat) : Option Bool :=
  (st.guild_opt.find? (fun r => r.id == guild_id)).bind (fun r => r.state)

/-- `Database.get_state` of `src/cogs/db.py`: start from `True`, let the
guild state override, then the user state; no blacklist consultation. -/
def get_state (st : CogsState) (guild_id user_id : Nat) : Bool :=
  let state := true
  let state := match get_guild_state st guild_id with
    | some s => s
    | none => state
  match get_user_state st user_id with
  | some s => s
  | none => state

/-- Python truthiness of an `Optional[str]`: `None` and `''` are falsy. -/
def truthy : Option String → Bool
  | none => false
  | some s => !s.isEmpty

/-- The occupancy `sum(animated == emote.animated for emote in guild.emojis)`
computed by `free_guild` from the cached emoji list. -/
def occupancy (animated : Bool) (g : CGuild) : Nat :=
  (g.emojis.filter (fun a => animated == a)).length

/-- The `free_guilds` list built by `Cogs.free_guild`'s loop. -/
def fg_candidates (guilds : List CGuild) (animated : Bool) : List CGuild :=
  guilds.filter (fun g => decide (occupancy animated g < 50))

/-- `Database.free_guild` of `src/cogs/db.py`: collect the guilds with
under-capacity kind occupancy, raise `NoMoreSlotsError` when empty, else
`random.choice(free_guilds)` — the draw `k` selects the `(k % n)`-th. -/
def free_guild (guilds : List CGuild) (animated : Bool) (k : Nat) :
    Except EmoteError CGuild :=
  match (fg_candidates guilds animated)[k % (fg_candidates guilds animated).length]? with
  | some g => .ok g
  | none => .error .noMoreSlots

/-- `Database.create_emote` of `src/cogs/db.py`: blacklist gate first
(Python truthiness: a non-empty reason raises `UserBlacklisted(reason)`),
then name-conflict check, then `free_guild`, then the external
`guild.create_custom_emoji` call (opaque; its id enters as `new_id`), then
the INSERT, returning `get_emote(name)` on the new state. -/
def create_emote (st : CogsState) (guilds : List CGuild) (name : String)
    (author_id : Nat) (animated : Bool) (new_id : Nat) (now : Int) (k : Nat) :
    Except EmoteError (CogsState × Option CEmote) := do
  let blacklist_reason := get_user_blacklist st author_id
  if truthy blacklist_reason then
    throw (.blacklisted (blacklist_reason.getD ""))
  ensure_emote_does_not_exist st name
  let _guild ← free_guild guilds animated k
  let e : CEmote :=
    { name := name, id := new_id, author := author_id,
      animated := animated, created := now, preserve := false }
  let st' := { st with emojis := st.emojis ++ [e] }
  return (st', get_emote st' name)

/-- `Database.is_owner` of `src/cogs/db.py` (no `None` bypass here; the
bypass lives in `remove_emote`'s `if user_id is not None`). -/
def is_owner (st : CogsState) (name : String) (user_id : Nat)
    (is_bot_owner : Nat → Bool) : Except EmoteError Bool :=
  match get_emote st name with
  | none => .error (.notFound name)
  | some e => .ok (is_bot_owner user_id || e.author == user_id)

/-- `Database.owner_check`. -/
def owner_check (st : CogsState) (name : String) (user_id : Nat)
    (is_bot_owner : Nat → Bool) : Except EmoteError Unit := do
  let ok ← is_owner st name user_id is_bot_owner
  if ok then return () else throw (.permissionDenied name)

/-- `Database.remove_emote` of `src/cogs/db.py`: optional ownership check,
lookup, then `self.bot.get_emoji(id)` — a missing backend emote
(`backend_has = false`) raises `errors.DiscordError` — then the external
`emote.delete()` and the two DELETEs (usage history, then metadata). -/
def remove_emote (st : CogsState) (name : String) (user_id : Option Nat)
    (is_bot_owner : Nat → Bool) (backend_has : Bool) :
    Except EmoteError CogsState := do
  match user_id with
  | some u => owner_check st name u is_bot_owner
  | none => pure ()
  match get_emote st name with
  | none => throw (.notFound name)
  | some db_emote => do
    if !backend_has then
      throw .discordError
    return { st with
      usage := st.usage.filter (fun u => u.id != db_emote.id),
      emojis := st.emojis.filter (fun x => x.id != db_emote.id) }

/-- `Database.rename_emote` of `src/cogs/db.py`: ownership check first, then
the conflict check skipped when only capitalization changes
(`EmoteExistsError(new_name)` — the new name as given), then the external
rename via the cached backend emote (consulting it on a missing emote dies
with an uncaught `AttributeError`, modelled as `internalError`), then the
UPDATE. -/
def rename_emote (st : CogsState) (old_name new_name : String)
    (user_id : Nat) (is_bot_owner : Nat → Bool) (backend_has : Bool) :
    Except EmoteError CogsState := do
  owner_check st old_name user_id is_bot_owner
  if lower old_name ≠ lower new_name ∧ (get_emote st new_name).isSome then
    throw (.emoteExists new_name)
  match get_emote st old_name with
  | none => throw .internalError
  | some db_emote => do
    if !backend_has then
      throw .internalError
    return { st with emojis := st.emojis.map (fun x =>
      if x.id == db_emote.id then { x with name := new_name } else x) }

/-- `Database.decayable_emotes` of `src/cogs/db.py`: same selection —
`(subquery usage count since cutoff) < threshold AND NOT preserve AND
created < cutoff`. -/
def decayable_emotes (st : CogsState) (cutoff : Int) (usage_threshold : Nat) :
    List CEmote :=
  st.emojis.filter (fun e =>
    decide (EC.usage_count st.usage e.id cutoff < usage_threshold) &&
    !e.preserve && decide (e.created < cutoff))

/-- `Database.log_emote_use` of `src/cogs/db.py`:
`INSERT INTO emote_usage_history (id) VALUES ($1)` — unconditional; the
function receives no acting user at all. -/
def log_emote_use (st : CogsState) (emote_id : Nat) (now : Int) : CogsState :=
  { st with usage := st.usage ++ [⟨emote_id, now⟩] }

/-- The loop body of `Cogs.decay` over an already-fetched candidate list:
remove each candidate system-initiated (`user_id=None`); there is no
`try/except`, so the first raised error propagates out of the pass with the
side effects so far left in place (the error result carries that state). -/
def decayGo (backend_has : Nat → Bool) :
    CogsState → List CEmote → Except (EmoteError × CogsState) CogsState
  | st, [] => .ok st
  | st, e :: rest =>
    match remove_emote st e.name none noAdmin (backend_has e.id) with
    | .ok st' => decayGo backend_has st' rest
    | .error err => .error (err, st)

/-- `Database.decay` of `src/cogs/db.py`.  (As written the source cannot even
run: `decay_loop` calls `self.decay(cutoff, 10)` but `decay` accepts no
arguments, and `decay` calls `self.decayable_emotes()` without its two
required arguments; the cutoff and threshold that `decay_loop` intends to
pass are taken as parameters here.) -/
def decay (st : CogsState) (cutoff : Int) (usage_threshold : Nat)
    (backend_has : Nat → Bool) : Except (EmoteError × CogsState) CogsState :=
  decayGo backend_has st (decayable_emotes st cutoff usage_threshold)

end Cogs

/-! ## Theorems -/

/-- An element returned by an indexed list lookup is a member of the list. -/
theorem mem_of_idx {α : Type} {l : List α} {i : Nat} {a : α}
    (h : l[i]? = some a) : a ∈ l := by
  obtain ⟨hlt, rfl⟩ := List.getElem?_eq_some.mp h
  exact List.getElem_mem hlt

/-- C2: in both revisions, allocation (`free_guild`) never returns a slot
whose occupancy for the requested kind is 50 or more; when every slot is at
capacity for that kind it fails with `NoMoreSlotsError`; and the returned
slot is drawn among all under-capacity candidates — every candidate, not
just the first, is returned for some random draw. -/
theorem c2_allocation_capacity :
    (∀ (guilds : List GuildRow) (animated : Bool) (k gid : Nat),
        EC.free_guild guilds animated k = .ok gid →
        ∃ g ∈ guilds, g.id = gid ∧ EC.usage_col animated g < 50) ∧
    (∀ (guilds : List GuildRow) (animated : Bool),
        (∀ g ∈ guilds, 50 ≤ EC.usage_col animated g) →
        ∀ k, EC.free_guild guilds animated k = .error .noMoreSlots) ∧
    (∀ (guilds : List GuildRow) (animated : Bool) (i : Nat)
        (h : i < (EC.fg_candidates guilds animated).length),
        ∃ k, EC.free_guild guilds animated k =
          .ok ((EC.fg_candidates guilds animated).get ⟨i, h⟩).id) ∧
    (∀ (guilds : List CGuild) (animated : Bool) (k : Nat) (g : CGuild),
        Cogs.free_guild guilds animated k = .ok g →
        g ∈ guilds ∧ Cogs.occupancy animated g < 50) ∧
    (∀ (guilds : List CGuild) (animated : Bool),
        (∀ g ∈ guilds, 50 ≤ Cogs.occupancy animated g) →
        ∀ k, Cogs.free_guild guilds animated k = .error .noMoreSlots) ∧
    (∀ (guilds : List CGuild) (animated : Bool) (i : Nat)
        (h : i < (Cogs.fg_candidates guilds animated).length),
        ∃ k, Cogs.free_guild guilds animated k =
          .ok ((Cogs.fg_candidates guilds animated).get ⟨i, h⟩)) := by
  refine ⟨?_, ?_, ?_, ?_, ?_, ?_⟩
  · intro guilds animated k gid h
    unfold EC.free_guild at h
    cases hg : (EC.fg_candidates guilds animated)[k % (EC.fg_candidates guilds animated).length]? with
    | none => rw [hg] at h; simp at h
    | some g =>
      rw [hg] at h
      have hmem := mem_of_idx hg
      rw [EC.fg_candidates, List.mem_filter] at hmem
      refine ⟨g, hmem.1, ?_, by simpa using hmem.2⟩
      simpa using h
  · intro guilds animated h k
    have hnil : EC.fg_candidates guilds animated = [] := by
      rw [EC.fg_candidates, List.filter_eq_nil_iff]
      intro g hg
      simp [Nat.not_lt.mpr (h g hg)]
    simp [EC.free_guild, hnil]
  · intro guilds animated i h
    refine ⟨i, ?_⟩
    unfold EC.free_guild
    rw [Nat.mod_eq_of_lt h, List.getElem?_eq_getElem h]
    simp [List.get_eq_getElem]
  · intro guilds animated k g h
    unfold Cogs.free_guild at h
    cases hg : (Cogs.fg_candidates guilds animated)[k % (Cogs.fg_candidates guilds animated).length]? with
    | none => rw [hg] at h; simp at h
    | some g' =>
      rw [hg] at h
      have hmem := mem_of_idx hg
      rw [Cogs.fg_candidates, List.mem_filter] at hmem
      have he : g' = g := by simpa using h
      subst he
      exact ⟨hmem.1, by simpa using hmem.2⟩
  · intro guilds animated h k
    have hnil : Cogs.fg_candidates guilds animated = [] := by
      rw [Cogs.fg_candidates, List.filter_eq_nil_iff]
      intro g hg
      simp [Nat.not_lt.mpr (h g hg)]
    simp [Cogs.free_guild, hnil]
  · intro guilds animated i h
    refine ⟨i, ?_⟩
    unfold Cogs.free_guild
    rw [Nat.mod_eq_of_lt h, List.getElem?_eq_getElem h]
    simp [List.get_eq_getElem]

/-- Guild directory used by the C2 witness: slot 100 is full for animated,
slot 101 has room for animated. -/
def w2_guilds : List GuildRow := [⟨100, 50, 3⟩, ⟨101, 7, 50⟩]

/-- Guild directory used by the C2 witness: one slot, full for both kinds. -/
def w2_full : List GuildRow := [⟨100, 50, 50⟩]

/-- C2 witness: at a concrete directory the allocator returns the one
under-capacity slot, and at a fully saturated directory it fails. -/
theorem c2_witness :
    (∃ g ∈ w2_guilds, g.id = 101 ∧ EC.usage_col true g < 50) ∧
    EC.free_guild w2_full true 0 = .error .noMoreSlots := by
  constructor
  · exact c2_allocation_capacity.1 w2_guilds true 0 101 (by rfl)
  · exact c2_allocation_capacity.2.1 w2_full true (by decide) 0

/-- Database state for the C1 counterexample: user 1 is blacklisted with
reason "spam"; no emotes exist. -/
def c1_st : ECState :=
  { emotes := [], usage := [], user_opt := [⟨1, none, some "spam"⟩], guild_opt := [] }

/-- Backend directory for the C1 counterexample: one empty slot. -/
def c1_guilds : List GuildRow := [⟨100, 0, 0⟩]

/-- C1 counterexample: in `emote_collector/extensions/db.py`, `create_emote`
does not consult the blacklist — a creation request by the blacklisted user 1
does not fail with the blacklist error; it allocates a slot and succeeds,
inserting the new emote into slot 100. -/
theorem c1_counterexample :
    EC.get_user_blacklist c1_st 1 = some "spam" ∧
    EC.create_emote c1_st c1_guilds "wave" 1 false 99 5 0 =
      .ok ({ c1_st with emotes := [⟨"wave", 99, 1, false, 100, 5, false, .SFW⟩] },
           ⟨"wave", 99, 1, false, 100, 5, false, .SFW⟩) := by
  constructor <;> rfl

/-- C1 (amended): in the `src/cogs/db.py` revision, `create_emote` consults
the requesting user's blacklist status first: for a user blacklisted with a
non-empty reason it fails with the blacklist error carrying that reason, and
the slot allocator is never invoked — the outcome is identical for any slot
directory, draw, external id and timestamp, so no slot capacity is consumed.
(The `emote_collector/extensions` revision's `create_emote` performs no
blacklist check at all, per the counterexample.) -/
theorem c1_blacklist_gate :
    ∀ (st : CogsState) (guilds gs2 : List CGuild) (name : String)
      (author_id : Nat) (animated : Bool) (nid nid2 : Nat) (now now2 : Int)
      (k k2 : Nat) (r : String),
      Cogs.get_user_blacklist st author_id = some r → r ≠ "" →
      Cogs.create_emote st guilds name author_id animated nid now k =
        .error (.blacklisted r) ∧
      Cogs.create_emote st guilds name author_id animated nid now k =
        Cogs.create_emote st gs2 name author_id animated nid2 now2 k2 := by
  intro st guilds gs2 name author_id animated nid nid2 now now2 k k2 r hbl hne
  have hie : r.isEmpty = false := by
    rw [← Bool.not_eq_true, String.isEmpty_iff]; exact hne
  have ht : Cogs.truthy (some r) = true := by simp [Cogs.truthy, hie]
  constructor
  · simp [Cogs.create_emote, hbl, ht, throw, throwThe, MonadExceptOf.throw,
      bind, Except.bind]
  · simp [Cogs.create_emote, hbl, ht, throw, throwThe, MonadExceptOf.throw,
      bind, Except.bind]

/-- Database state for the C1 witness: user 1 blacklisted with reason
"spam". -/
def w1_st : CogsState :=
  { emojis := [], usage := [], user_opt := [⟨1, none, some "spam"⟩], guild_opt := [] }

/-- C1 witness: a concrete blacklisted creation fails with the blacklist
error and is insensitive to the slot directory and draw. -/
theorem c1_witness :
    Cogs.create_emote w1_st [⟨100, []⟩] "wave" 1 false 99 5 0 =
      .error (.blacklisted "spam") ∧
    Cogs.create_emote w1_st [⟨100, []⟩] "wave" 1 false 99 5 0 =
      Cogs.create_emote w1_st [] "wave" 1 false 98 6 3 :=
  c1_blacklist_gate w1_st [⟨100, []⟩] [] "wave" 1 false 99 98 5 6 0 3 "spam" (by rfl) (by decide)

/-- C3: in both revisions, renaming an existing emote by an authorized user
to a name equal to the current one under case-insensitive comparison
(capitalization change only) succeeds and does not raise the uniqueness
conflict, while renaming to a name already used (case-insensitively) by a
different live emote fails with the already-exists error. -/
theorem c3_rename_case_insensitive :
    (∀ (st : ECState) (old_name new_name : String) (u : Option Nat)
        (ibo : Nat → Bool) (e : Emote),
        lower old_name = lower new_name →
        EC.get_emote st old_name = .ok e →
        EC.is_owner e u ibo = true →
        EC.rename_emote st old_name new_name u ibo =
          .ok ({ st with emotes := st.emotes.map (fun x =>
              if x.id == e.id then { x with name := new_name } else x) },
            { e with name := new_name })) ∧
    (∀ (st : ECState) (old_name new_name : String) (u : Option Nat)
        (ibo : Nat → Bool) (e2 : Emote),
        lower old_name ≠ lower new_name →
        EC.get_emote st new_name = .ok e2 →
        EC.rename_emote st old_name new_name u ibo =
          .error (.emoteExists e2.name)) ∧
    (∀ (st : CogsState) (old_name new_name : String) (u : Nat)
        (ibo : Nat → Bool) (e : CEmote),
        lower old_name = lower new_name →
        Cogs.get_emote st old_name = some e →
        (ibo u || e.author == u) = true →
        Cogs.rename_emote st old_name new_name u ibo true =
          .ok { st with emojis := st.emojis.map (fun x =>
              if x.id == e.id then { x with name := new_name } else x) }) ∧
    (∀ (st : CogsState) (old_name new_name : String) (u : Nat)
        (ibo : Nat → Bool) (bh : Bool) (e e2 : CEmote),
        Cogs.get_emote st old_name = some e →
        (ibo u || e.author == u) = true →
        lower old_name ≠ lower new_name →
        Cogs.get_emote st new_name = some e2 →
        Cogs.rename_emote st old_name new_name u ibo bh =
          .error (.emoteExists new_name)) := by
  refine ⟨?_, ?_, ?_, ?_⟩
  · intro st old_name new_name u ibo e hlow hget how
    simp [EC.rename_emote, EC.owner_check, hlow, hget, how,
      bind, Except.bind, pure, Except.pure]
  · intro st old_name new_name u ibo e2 hlow hget2
    simp [EC.rename_emote, EC.ensure_emote_does_not_exist, hlow, hget2,
      bind, Except.bind, pure, Except.pure]
  · intro st old_name new_name u ibo e hlow hget how
    simp [Cogs.rename_emote, Cogs.owner_check, Cogs.is_owner, hlow, hget, how,
      bind, Except.bind, pure, Except.pure]
  · intro st old_name new_name u ibo bh e e2 hget how hlow hget2
    simp [Cogs.rename_emote, Cogs.owner_check, Cogs.is_owner, hget, how, hlow,
      hget2, bind, Except.bind, pure, Except.pure, throw, throwThe,
      MonadExceptOf.throw]

/-- Database state for the C3 witness: two emotes "Foo" and "bar", both
owned by user 42. -/
def w3_st : ECState :=
  { emotes := [⟨"Foo", 1, 42, false, 10, 0, false, .SFW⟩,
               ⟨"bar", 2, 42, false, 10, 0, false, .SFW⟩],
    usage := [], user_opt := [], guild_opt := [] }

/-- C3 witness: renaming "Foo" to "FOO" (capitalization only) succeeds, and
renaming "foo" to "BAR" — a name held by the other live emote — fails with
the already-exists error. -/
theorem c3_witness :
    EC.rename_emote w3_st "Foo" "FOO" (some 42) noAdmin =
      .ok ({ w3_st with emotes := [⟨"FOO", 1, 42, false, 10, 0, false, .SFW⟩,
               ⟨"bar", 2, 42, false, 10, 0, false, .SFW⟩] },
        ⟨"FOO", 1, 42, false, 10, 0, false, .SFW⟩) ∧
    EC.rename_emote w3_st "foo" "BAR" (some 42) noAdmin =
      .error (.emoteExists "bar") := by
  constructor
  · exact c3_rename_case_insensitive.1 w3_st "Foo" "FOO" (some 42) noAdmin
      ⟨"Foo", 1, 42, false, 10, 0, false, .SFW⟩ (by decide) (by rfl) (by rfl)
  · exact c3_rename_case_insensitive.2.1 w3_st "foo" "BAR" (some 42) noAdmin
      ⟨"bar", 2, 42, false, 10, 0, false, .SFW⟩ (by decide) (by rfl)

/-- C4: in both revisions, the decay engine selects an emote as an eviction
candidate iff it was created strictly before the cutoff, its preserve flag
is false, and its count of usage events strictly after the cutoff is
strictly below the configured threshold; in particular a preserved emote is
never selected. -/
theorem c4_decay_selection :
    (∀ (st : ECState) (cutoff : Int) (thr : Nat) (e : Emote),
        e ∈ EC.decayable_emotes st cutoff thr ↔
          e ∈ st.emotes ∧ e.created < cutoff ∧ e.preserve = false ∧
            EC.usage_count st.usage e.id cutoff < thr) ∧
    (∀ (st : ECState) (cutoff : Int) (thr : Nat) (e : Emote),
        e.preserve = true → e ∉ EC.decayable_emotes st cutoff thr) ∧
    (∀ (st : CogsState) (cutoff : Int) (thr : Nat) (e : CEmote),
        e ∈ Cogs.decayable_emotes st cutoff thr ↔
          e ∈ st.emojis ∧ e.created < cutoff ∧ e.preserve = false ∧
            EC.usage_count st.usage e.id cutoff < thr) ∧
    (∀ (st : CogsState) (cutoff : Int) (thr : Nat) (e : CEmote),
        e.preserve = true → e ∉ Cogs.decayable_emotes st cutoff thr) := by
  refine ⟨?_, ?_, ?_, ?_⟩
  · intro st cutoff thr e
    simp [EC.decayable_emotes, List.mem_filter]
    tauto
  · intro st cutoff thr e hp
    simp [EC.decayable_emotes, List.mem_filter, hp]
  · intro st cutoff thr e
    simp [Cogs.decayable_emotes, List.mem_filter]
    tauto
  · intro st cutoff thr e hp
    simp [Cogs.decayable_emotes, List.mem_filter, hp]

/-- Database state for the C4 witness: emote 1 ("old") is stale, unpreserved
and used once since the cutoff; emote 2 ("kept") is identical but
preserved. -/
def w4_st : ECState :=
  { emotes := [⟨"old", 1, 9, false, 10, -1, false, .SFW⟩,
               ⟨"kept", 2, 9, false, 10, -1, true, .SFW⟩],
    usage := [⟨1, 1⟩], user_opt := [], guild_opt := [] }

/-- C4 witness: with cutoff 0 and usage threshold 2, the stale emote with a
single recent use is selected, and the preserved one is not. -/
theorem c4_witness :
    (⟨"old", 1, 9, false, 10, -1, false, .SFW⟩ : Emote) ∈ EC.decayable_emotes w4_st 0 2 ∧
    (⟨"kept", 2, 9, false, 10, -1, true, .SFW⟩ : Emote) ∉ EC.decayable_emotes w4_st 0 2 := by
  constructor
  · exact (c4_decay_selection.1 w4_st 0 2 _).mpr ⟨by decide, by decide, rfl, by decide⟩
  · exact c4_decay_selection.2.1 w4_st 0 2 _ rfl

/-- Database state for the C5 counterexample: one emote, id 1, authored by
user 42; empty usage ledger. -/
def c5_st : CogsState :=
  { emojis := [⟨"wave", 1, 42, false, 0, false⟩], usage := [],
    user_opt := [], guild_opt := [] }

/-- C5 counterexample: in `src/cogs/db.py`, `log_emote_use` receives no
acting user and appends unconditionally, so a usage event recorded for
emote 1 — in particular one recorded by its own author, user 42 — changes
the emote's usage count, contradicting the claim that an author-recorded
event leaves the count unchanged. -/
theorem c5_counterexample :
    (Cogs.get_emote c5_st "wave").map (fun e => e.author) = some 42 ∧
    Cogs.log_emote_use c5_st 1 7 ≠ c5_st ∧
    (Cogs.log_emote_use c5_st 1 7).usage.length = c5_st.usage.length + 1 :=
  ⟨rfl, by decide, rfl⟩

/-- C5 (amended): in the `emote_collector/extensions` revision,
`log_emote_use` appends a usage event only when the acting user is not the
emote's author — a self-use leaves the whole database state unchanged, and a
use by anyone who authored no emote with that id appends exactly one event.
(In the `src/cogs` revision, `log_emote_use` takes no acting user and always
appends, per the counterexample; any exclusion is left to its callers.) -/
theorem c5_self_use_excluded :
    (∀ (st : ECState) (eid uid : Nat) (now : Int),
        (∃ e ∈ st.emotes, e.id = eid ∧ e.author = uid) →
        EC.log_emote_use st eid uid now = st) ∧
    (∀ (st : ECState) (eid uid : Nat) (now : Int),
        (∀ e ∈ st.emotes, e.id = eid → e.author ≠ uid) →
        (EC.log_emote_use st eid uid now).usage = st.usage ++ [⟨eid, now⟩]) := by
  constructor
  · rintro st eid uid now ⟨e, hmem, hid, hauth⟩
    have ha : st.emotes.any (fun e => e.id == eid && e.author == uid) = true := by
      rw [List.any_eq_true]
      exact ⟨e, hmem, by simp [hid, hauth]⟩
    simp [EC.log_emote_use, ha]
  · intro st eid uid now h
    have ha : st.emotes.any (fun e => e.id == eid && e.author == uid) = false := by
      rw [← Bool.not_eq_true, List.any_eq_true]
      rintro ⟨e, hmem, he⟩
      simp at he
      exact h e hmem he.1 he.2
    simp [EC.log_emote_use, ha]

/-- Database state for the C5 witness: one emote, id 1, authored by 42. -/
def w5_st : ECState :=
  { emotes := [⟨"wave", 1, 42, false, 10, 0, false, .SFW⟩], usage := [],
    user_opt := [], guild_opt := [] }

/-- C5 witness: author 42's own use of emote 1 records nothing, while user
9's use appends exactly one ledger event. -/
theorem c5_witness :
    EC.log_emote_use w5_st 1 42 7 = w5_st ∧
    (EC.log_emote_use w5_st 1 9 7).usage = w5_st.usage ++ [⟨1, 7⟩] := by
  constructor
  · exact c5_self_use_excluded.1 w5_st 1 42 7
      ⟨⟨"wave", 1, 42, false, 10, 0, false, .SFW⟩, by decide, rfl, rfl⟩
  · exact c5_self_use_excluded.2 w5_st 1 9 7 (by decide)

/-- C6: in both revisions, a successful `remove_emote` leaves no metadata
record and no usage-ledger event carrying the removed emote's id (for the
`extensions` revision the ledger purge is the schema-level cascade modelled
by `EC.purge_usage`; the `cogs` revision deletes both rows explicitly). -/
theorem c6_removal_purges :
    (∀ (st : ECState) (e : Emote) (u : Option Nat) (ibo : Nat → Bool)
        (ext : ExternalDelete) (st2 : ECState) (w : Bool),
        EC.remove_emote st e u ibo ext = .ok (st2, w) →
        (∀ ev ∈ st2.usage, ev.id ≠ e.id) ∧ (∀ x ∈ st2.emotes, x.id ≠ e.id)) ∧
    (∀ (st : CogsState) (name : String) (u : Option Nat) (ibo : Nat → Bool)
        (bh : Bool) (st2 : CogsState) (e : CEmote),
        Cogs.remove_emote st name u ibo bh = .ok st2 →
        Cogs.get_emote st name = some e →
        (∀ ev ∈ st2.usage, ev.id ≠ e.id) ∧ (∀ x ∈ st2.emojis, x.id ≠ e.id)) := by
  constructor
  · intro st e u ibo ext st2 w h
    by_cases ho : EC.is_owner e u ibo = true
    · cases ext with
      | failed =>
        simp [EC.remove_emote, EC.owner_check, ho, bind, Except.bind, throw,
          throwThe, MonadExceptOf.throw] at h
      | ok =>
        simp [EC.remove_emote, EC.owner_check, ho, bind, Except.bind, pure,
          Except.pure] at h
        obtain ⟨h1, -⟩ := h
        subst h1
        constructor
        · intro ev hev
          simp [EC.purge_usage, List.mem_filter] at hev
          exact hev.2
        · intro x hx
          simp [List.mem_filter] at hx
          exact hx.2
      | notFound =>
        simp [EC.remove_emote, EC.owner_check, ho, bind, Except.bind, pure,
          Except.pure] at h
        obtain ⟨h1, -⟩ := h
        subst h1
        constructor
        · intro ev hev
          simp [EC.purge_usage, List.mem_filter] at hev
          exact hev.2
        · intro x hx
          simp [List.mem_filter] at hx
          exact hx.2
    · simp [EC.remove_emote, EC.owner_check, ho, bind, Except.bind] at h
  · intro st name u ibo bh st2 e h hget
    cases bh with
    | false =>
      cases u with
      | none =>
        simp [Cogs.remove_emote, hget, bind, Except.bind, pure, Except.pure,
          throw, throwThe, MonadExceptOf.throw] at h
      | some uu =>
        cases hoc : Cogs.owner_check st name uu ibo with
        | error err =>
          simp [Cogs.remove_emote, hoc, hget, bind, Except.bind] at h
        | ok uu2 =>
          simp [Cogs.remove_emote, hoc, hget, bind, Except.bind, pure,
            Except.pure, throw, throwThe, MonadExceptOf.throw] at h
    | true =>
      have hshape : st2 = { st with
          usage := st.usage.filter (fun ev => ev.id != e.id),
          emojis := st.emojis.filter (fun x => x.id != e.id) } := by
        cases u with
        | none =>
          simp [Cogs.remove_emote, hget, bind, Except.bind, pure,
            Except.pure] at h
          exact h.symm
        | some uu =>
          cases hoc : Cogs.owner_check st name uu ibo with
          | error err =>
            simp [Cogs.remove_emote, hoc, hget, bind, Except.bind] at h
          | ok uu2 =>
            simp [Cogs.remove_emote, hoc, hget, bind, Except.bind, pure,
              Except.pure] at h
            exact h.symm
      subst hshape
      constructor
      · intro ev hev
        simp [List.mem_filter] at hev
        exact hev.2
      · intro x hx
        simp [List.mem_filter] at hx
        exact hx.2

/-- Database state for the C6 witness: one emote (id 1) and a two-event
ledger, one event for the emote and one for id 2. -/
def w6_st : ECState :=
  { emotes := [⟨"wave", 1, 42, false, 10, 0, false, .SFW⟩],
    usage := [⟨1, 3⟩, ⟨2, 4⟩], user_opt := [], guild_opt := [] }

/-- The state produced by the C6 witness removal: the emote is gone and
only the unrelated ledger event (id 2) survives. -/
def w6_st2 : ECState := { emotes := [], usage := [⟨2, 4⟩], user_opt := [], guild_opt := [] }

/-- C6 witness: after the author removes emote 1, no ledger event and no
metadata record with id 1 remains. -/
theorem c6_witness :
    (∀ ev ∈ w6_st2.usage, ev.id ≠ 1) ∧ (∀ x ∈ w6_st2.emotes, x.id ≠ 1) :=
  c6_removal_purges.1 w6_st ⟨"wave", 1, 42, false, 10, 0, false, .SFW⟩
    (some 42) noAdmin .ok w6_st2 false (by rfl)

/-- Database state for the C7 counterexample: the metadata record for
"wave" (id 1) exists, with one ledger event. -/
def c7_st : CogsState :=
  { emojis := [⟨"wave", 1, 42, false, 0, false⟩], usage := [⟨1, 3⟩],
    user_opt := [], guild_opt := [] }

/-- C7 counterexample: in `src/cogs/db.py`, when the metadata record exists
but the backend emote is already gone (`bot.get_emoji` returns `None`),
`remove_emote` raises `DiscordError` instead of completing successfully —
the missing external resource is escalated, not tolerated, and no row is
deleted. -/
theorem c7_counterexample :
    Cogs.get_emote c7_st "wave" = some ⟨"wave", 1, 42, false, 0, false⟩ ∧
    Cogs.remove_emote c7_st "wave" (some 42) noAdmin false =
      .error .discordError :=
  ⟨rfl, rfl⟩

/-- C7 (amended): in the `emote_collector/extensions` revision,
`remove_emote` on a record whose external emote is already gone (the
external delete reports 404) logs the desync warning (the `true` flag),
still deletes the metadata record, and completes successfully.  (The
`src/cogs` revision instead raises `DiscordError` and deletes nothing, per
the counterexample.) -/
theorem c7_desync_tolerated :
    ∀ (st : ECState) (e : Emote) (u : Option Nat) (ibo : Nat → Bool),
      EC.is_owner e u ibo = true →
      EC.remove_emote st e u ibo .notFound =
        .ok ({ st with emotes := st.emotes.filter (fun x => x.id != e.id),
                       usage := EC.purge_usage st.usage e.id }, true) := by
  intro st e u ibo ho
  simp [EC.remove_emote, EC.owner_check, ho, bind, Except.bind, pure, Except.pure]

/-- Database state for the C7 witness: one emote whose backend copy is
gone. -/
def w7_st : ECState :=
  { emotes := [⟨"gone", 5, 42, false, 10, 0, false, .SFW⟩],
    usage := [⟨5, 1⟩], user_opt := [], guild_opt := [] }

/-- C7 witness: removing the desynchronized emote succeeds, logs the
warning, and purges its rows. -/
theorem c7_witness :
    EC.remove_emote w7_st ⟨"gone", 5, 42, false, 10, 0, false, .SFW⟩
        (some 42) noAdmin .notFound =
      .ok ({ w7_st with emotes := [], usage := [] }, true) :=
  c7_desync_tolerated w7_st ⟨"gone", 5, 42, false, 10, 0, false, .SFW⟩
    (some 42) noAdmin (by rfl)

/-- A system-initiated removal whose external delete fails raises the
caught external error. -/
theorem remove_emote_none_failed (st : ECState) (e : Emote) (ibo : Nat → Bool) :
    EC.remove_emote st e none ibo .failed = .error .discordError := by
  simp [EC.remove_emote, EC.owner_check, EC.is_owner, bind, Except.bind,
    throw, throwThe, MonadExceptOf.throw]

/-- A system-initiated removal whose external delete does not fail succeeds
and purges the emote's rows. -/
theorem remove_emote_none_ok (st : ECState) (e : Emote) (ibo : Nat → Bool)
    (ext2 : ExternalDelete) (h : ext2 ≠ .failed) :
    EC.remove_emote st e none ibo ext2 =
      .ok ({ st with emotes := st.emotes.filter (fun x => x.id != e.id),
                     usage := EC.purge_usage st.usage e.id },
        ext2 == ExternalDelete.notFound) := by
  cases ext2 with
  | failed => exact absurd rfl h
  | ok =>
    simp [EC.remove_emote, EC.owner_check, EC.is_owner, bind, Except.bind,
      pure, Except.pure]
  | notFound =>
    simp [EC.remove_emote, EC.owner_check, EC.is_owner, bind, Except.bind,
      pure, Except.pure]

/-- A decay pass notifies every fetched candidate, failures
notwithstanding. -/
theorem decayGo_notified (ext : Nat → ExternalDelete) (cands : List Emote) :
    ∀ st : ECState,
      (EC.decayGo ext st cands).notified = cands.map (fun e => e.name) := by
  induction cands with
  | nil => intro st; rfl
  | cons c rest ih =>
    intro st
    unfold EC.decayGo
    cases hr : EC.remove_emote st c none noAdmin (ext c.id) with
    | ok p => cases p with | mk st2 w => simp [ih]
    | error err => simp [ih]

/-- A candidate whose removal fails has its failure logged and its
notification retracted. -/
theorem decayGo_failure_logged (ext : Nat → ExternalDelete)
    (cands : List Emote) :
    ∀ (st : ECState) (e : Emote), e ∈ cands → ext e.id = .failed →
      e.name ∈ (EC.decayGo ext st cands).failures ∧
      e.name ∈ (EC.decayGo ext st cands).retracted := by
  induction cands with
  | nil => intro st e hmem; cases hmem
  | cons c rest ih =>
    intro st e hmem hf
    rcases List.mem_cons.mp hmem with heq | htail
    · subst heq
      unfold EC.decayGo
      rw [hf, remove_emote_none_failed]
      exact ⟨List.mem_cons_self _ _, List.mem_cons_self _ _⟩
    · unfold EC.decayGo
      cases hr : EC.remove_emote st c none noAdmin (ext c.id) with
      | ok p =>
        cases p with | mk st2 w =>
        have := ih st2 e htail hf
        simpa using this
      | error err =>
        have := ih st e htail hf
        exact ⟨List.mem_cons_of_mem _ this.1, List.mem_cons_of_mem _ this.2⟩

/-- An emote whose external delete fails survives the whole decay pass:
its own removal errors out before the DELETE, and successful removals of
other candidates only purge their own ids. -/
theorem decayGo_keeps_failed (ext : Nat → ExternalDelete)
    (cands : List Emote) :
    ∀ (st : ECState) (e : Emote), e ∈ st.emotes → ext e.id = .failed →
      e ∈ (EC.decayGo ext st cands).state.emotes := by
  induction cands with
  | nil => intro st e h hf; exact h
  | cons c rest ih =>
    intro st e h hf
    unfold EC.decayGo
    cases hr : EC.remove_emote st c none noAdmin (ext c.id) with
    | error err => exact ih st e h hf
    | ok p =>
      cases p with | mk st2 w =>
      have hcf : ext c.id ≠ .failed := by
        intro hx
        rw [hx, remove_emote_none_failed] at hr
        exact absurd hr (by simp)
      have hshape := remove_emote_none_ok st c noAdmin (ext c.id) hcf
      rw [hshape] at hr
      have hst2 : st2 = { st with
          emotes := st.emotes.filter (fun x => x.id != c.id),
          usage := EC.purge_usage st.usage c.id } := by
        have := (Except.ok.injEq _ _).mp hr
        exact (congrArg Prod.fst this).symm
      subst hst2
      apply ih
      · have hne : e.id ≠ c.id := by
          intro hx
          rw [← hx] at hcf
          exact hcf hf
        simp [List.mem_filter, h, hne]
      · exact hf

/-- C8: in the `emote_collector/extensions` revision, a decay pass
processes every candidate even when some removals fail with the caught
external error: each candidate is notified, and a failing candidate has
its failure logged, its already-sent notification retracted, and its
metadata record left in place.  (The `src/cogs` revision has no per-candidate
recovery, per the counterexample.) -/
theorem c8_decay_pass_resilient :
    ∀ (st : ECState) (cutoff : Int) (thr : Nat) (ext : Nat → ExternalDelete),
      (EC.decay st cutoff thr ext).notified =
        (EC.decayable_emotes st cutoff thr).map (fun e => e.name) ∧
      (∀ e ∈ EC.decayable_emotes st cutoff thr, ext e.id = .failed →
        e.name ∈ (EC.decay st cutoff thr ext).failures ∧
        e.name ∈ (EC.decay st cutoff thr ext).retracted ∧
        e ∈ (EC.decay st cutoff thr ext).state.emotes) := by
  intro st cutoff thr ext
  constructor
  · exact decayGo_notified ext _ st
  · intro e hmem hf
    have hlog := decayGo_failure_logged ext _ st e hmem hf
    have hst : e ∈ st.emotes := (List.mem_filter.mp hmem).1
    exact ⟨hlog.1, hlog.2, decayGo_keeps_failed ext _ st e hst hf⟩

/-- Database state for the C8 witness: two decayable emotes. -/
def w8_st : ECState :=
  { emotes := [⟨"a", 1, 9, false, 10, 0, false, .SFW⟩,
               ⟨"b", 2, 9, false, 10, 0, false, .SFW⟩],
    usage := [], user_opt := [], guild_opt := [] }

/-- External outcomes for the C8 witness: deleting emote 1 fails, the rest
succeed. -/
def w8_ext : Nat → ExternalDelete := fun i => if i == 1 then .failed else .ok

/-- C8 witness: with emote 1's delete failing, both candidates are
notified, and emote 1 is logged, retracted and kept. -/
theorem c8_witness :
    (EC.decay w8_st 10 1 w8_ext).notified =
      (EC.decayable_emotes w8_st 10 1).map (fun e => e.name) ∧
    ("a" ∈ (EC.decay w8_st 10 1 w8_ext).failures ∧
     "a" ∈ (EC.decay w8_st 10 1 w8_ext).retracted ∧
     (⟨"a", 1, 9, false, 10, 0, false, .SFW⟩ : Emote) ∈
       (EC.decay w8_st 10 1 w8_ext).state.emotes) := by
  refine ⟨(c8_decay_pass_resilient w8_st 10 1 w8_ext).1, ?_⟩
  exact (c8_decay_pass_resilient w8_st 10 1 w8_ext).2
    ⟨"a", 1, 9, false, 10, 0, false, .SFW⟩ (by decide) (by rfl)

/-- Database state for the C8 counterexample: two stale, unused,
unpreserved emotes. -/
def c8_st : CogsState :=
  { emojis := [⟨"a", 1, 9, false, 0, false⟩, ⟨"b", 2, 9, false, 0, false⟩],
    usage := [], user_opt := [], guild_opt := [] }

/-- Backend presence for the C8 counterexample: emote 1's backend copy is
gone, emote 2's is present. -/
def c8_backend : Nat → Bool := fun i => i == 2

/-- C8 counterexample: in `src/cogs/db.py`, both emotes are decay
candidates, yet the pass aborts on candidate 1's failure with the state
untouched — candidate 2, whose removal would succeed, is never processed. -/
theorem c8_counterexample :
    Cogs.decayable_emotes c8_st 10 1 =
      [⟨"a", 1, 9, false, 0, false⟩, ⟨"b", 2, 9, false, 0, false⟩] ∧
    Cogs.decay c8_st 10 1 c8_backend = .error (.discordError, c8_st) ∧
    Cogs.remove_emote c8_st "b" none noAdmin (c8_backend 2) =
      .ok { c8_st with emojis := [⟨"a", 1, 9, false, 0, false⟩], usage := [] } :=
  ⟨rfl, rfl, rfl⟩

/-- Database state for the C9 counterexample: user 5 is blacklisted yet has
an explicit opt-in state, guild 7 has an explicit opt-out state. -/
def c9_st : CogsState :=
  { emojis := [], usage := [], user_opt := [⟨5, some true, some "bad"⟩],
    guild_opt := [⟨7, some false⟩] }

/-- C9 counterexample: in `src/cogs/db.py`, `get_state` never consults the
blacklist — for the blacklisted user 5 (explicit user state `true`, guild
state `false`) it resolves to `true`, not `false` as the claim requires. -/
theorem c9_counterexample :
    Cogs.get_user_blacklist c9_st 5 = some "bad" ∧
    Cogs.get_state c9_st 7 5 = true :=
  ⟨rfl, rfl⟩

/-- C9 (amended): in the `emote_collector/extensions` revision, `get_state`
resolves to `false` whenever the user is blacklisted (non-null reason),
regardless of user and guild settings; otherwise the user's explicit state
wins, else the guild's, else `true`.  (The `src/cogs` revision ignores the
blacklist entirely, per the counterexample.) -/
theorem c9_state_resolution :
    ∀ (st : ECState) (gid uid : Nat),
      (∀ r, EC.get_user_blacklist st uid = some r →
        EC.get_state st gid uid = false) ∧
      (EC.get_user_blacklist st uid = none →
        EC.get_state st gid uid =
          ((EC.get_user_state st uid).getD
            ((EC.get_guild_state st gid).getD true))) := by
  intro st gid uid
  constructor
  · intro r hb
    simp [EC.get_state, hb]
  · intro hb
    simp only [EC.get_state, hb]
    cases hu : EC.get_user_state st uid with
    | some s => simp
    | none =>
      cases hg : EC.get_guild_state st gid with
      | some s => simp
      | none => simp

/-- Database state for the C9 witness: blacklisted user 5 and clean user 6,
both opted in; guild 7 opted out. -/
def w9_st : ECState :=
  { emotes := [], usage := [],
    user_opt := [⟨5, some true, some "bad"⟩, ⟨6, some true, none⟩],
    guild_opt := [⟨7, some false⟩] }

/-- C9 witness: the blacklisted user resolves to `false`; the clean user's
explicit `true` overrides the guild's `false`. -/
theorem c9_witness :
    EC.get_state w9_st 7 5 = false ∧
    EC.get_state w9_st 7 6 = true := by
  constructor
  · exact (c9_state_resolution w9_st 7 5).1 "bad" (by rfl)
  · exact (c9_state_resolution w9_st 7 6).2 (by rfl)

/-- `new_nsfw_status`'s implicit-`None` fall-through is dead code for the
three-valued `nsfw` column domain. -/
theorem new_nsfw_status_not_none :
    ∀ (n : Nsfw) (b : Bool), EC.new_nsfw_status n b ≠ .ok none := by
  intro n b
  cases n <;> cases b <;> decide

/-- C10: toggling a `MOD_NSFW` emote without moderator rights raises
`BadArgument` before any UPDATE is issued (so the `nsfw` field is
unchanged); a moderator toggle of a `MOD_NSFW` emote — and only a moderator
toggle — yields `SFW`; and a non-moderator toggle of an `SFW` emote yields
`SELF_NSFW`, never `MOD_NSFW`. -/
theorem c10_nsfw_transitions :
    (∀ (st : ECState) (e : Emote), e.nsfw = .MOD_NSFW →
        EC.toggle_emote_nsfw st e false = .error .badArgument) ∧
    EC.new_nsfw_status .MOD_NSFW true = .ok (some .SFW) ∧
    (∀ b : Bool, EC.new_nsfw_status .MOD_NSFW b = .ok (some .SFW) → b = true) ∧
    EC.new_nsfw_status .SFW false = .ok (some .SELF_NSFW) := by
  refine ⟨?_, by decide, ?_, by decide⟩
  · intro st e he
    have hns : EC.new_nsfw_status e.nsfw false = .error .badArgument := by
      rw [he]; decide
    simp [EC.toggle_emote_nsfw, hns, bind, Except.bind]
  · intro b h
    cases b with
    | true => rfl
    | false => exact absurd h (by decide)

/-- Database state for the C10 witness: one `MOD_NSFW` emote. -/
def w10_st : ECState :=
  { emotes := [⟨"x", 1, 42, false, 10, 0, false, .MOD_NSFW⟩], usage := [],
    user_opt := [], guild_opt := [] }

/-- C10 witness: a non-moderator toggle of the `MOD_NSFW` emote fails with
`BadArgument`. -/
theorem c10_witness :
    EC.toggle_emote_nsfw w10_st ⟨"x", 1, 42, false, 10, 0, false, .MOD_NSFW⟩
        false = .error .badArgument ∧
    True :=
  ⟨c10_nsfw_transitions.1 w10_st _ rfl,
   by have := c10_nsfw_transitions.2.2.1 true rfl; trivial⟩

end EmoteVacuum
